import Mathlib

/-!
Shallow embedding of the bustub buffer-pool core:
`src/buffer/lru_replacer.cpp`, `src/buffer/buffer_pool_manager_instance.cpp`
and `src/buffer/parallel_buffer_pool_manager.cpp`.

Page buffers are modelled abstractly: a frame's byte buffer is a single
`Nat`, with `0` standing for the all-zero buffer produced by
`Page::ResetMemory`.  The disk is a total function from page ids to such
contents, together with logs of the read and deallocation calls issued to
the disk manager, so that theorems can observe which I/O an operation
performs.
-/

namespace BusTub

abbrev PageId := Int
abbrev FrameId := Nat

def INVALID_PAGE_ID : PageId := -1

/-- One buffer-pool frame: the `Page` object's metadata plus its buffer,
the latter abstracted to a single `Nat` (0 = zeroed buffer). -/
structure Frame where
  page_id : PageId
  pin_count : Nat
  is_dirty : Bool
  data : Nat
  deriving Repr, DecidableEq

/-- A frame as produced by the `Page` default constructor or by the reset
sequence `ResetMemory / page_id_ = INVALID_PAGE_ID / pin_count_ = 0 /
is_dirty_ = false`. -/
def Frame.empty : Frame :=
  { page_id := INVALID_PAGE_ID, pin_count := 0, is_dirty := false, data := 0 }

/-- The disk manager collaborator: current per-page contents plus logs of
the read and deallocation requests it has received. -/
structure Disk where
  contents : PageId → Nat
  reads : List PageId
  deallocated : List PageId

def Disk.writePage (d : Disk) (p : PageId) (v : Nat) : Disk :=
  { d with contents := fun q => if q = p then v else d.contents q }

def Disk.readPage (d : Disk) (p : PageId) : Nat × Disk :=
  (d.contents p, { d with reads := d.reads ++ [p] })

/-- Modelled from the spec: `disk.deallocate_page(page_id)` (spec sections 4.2
and 6).  `BufferPoolManagerInstance::DeallocatePage` is declared in a header
that is not part of `src/`; following the spec it forwards the page id to the
disk collaborator, recorded here in a log. -/
def Disk.deallocatePage (d : Disk) (p : PageId) : Disk :=
  { d with deallocated := d.deallocated ++ [p] }

def mkDisk (c : PageId → Nat) : Disk :=
  { contents := c, reads := [], deallocated := [] }

/-! ### LRU replacer (`lru_replacer.cpp`)

The `std::list` plus iterator map is embedded as the list alone: the map
holds exactly the members of the list, so membership in the list models
membership in the map, and erasing at the stored iterator is erasing the
(unique) occurrence. -/

structure LRUReplacer where
  replacer : List FrameId
  max_pages : Nat
  deriving Repr, DecidableEq

/-- `LRUReplacer::Victim`: pop the head of the list, if any. -/
def LRUReplacer.victim (r : LRUReplacer) : Option FrameId × LRUReplacer :=
  match r.replacer with
  | [] => (none, r)
  | f :: rest => (some f, { r with replacer := rest })

/-- `LRUReplacer::Pin`: erase `f` if present, else no-op. -/
def LRUReplacer.pin (r : LRUReplacer) (f : FrameId) : LRUReplacer :=
  if f ∈ r.replacer then { r with replacer := r.replacer.erase f } else r

/-- `LRUReplacer::Unpin`: idempotent append at the tail, guarded by
`max_pages_`. -/
def LRUReplacer.unpin (r : LRUReplacer) (f : FrameId) : LRUReplacer :=
  if f ∈ r.replacer then r
  else if r.replacer.length < r.max_pages then
    { r with replacer := r.replacer ++ [f] }
  else r

def LRUReplacer.size (r : LRUReplacer) : Nat := r.replacer.length

/-! ### Page table

`std::unordered_map<page_id_t, frame_id_t>` embedded as an association
list.  `emplace` inserts only when the key is absent, exactly like the
source container. -/

def ptLookup : List (PageId × FrameId) → PageId → Option FrameId
  | [], _ => none
  | (q, g) :: rest, p => if q = p then some g else ptLookup rest p

def ptEraseKey : List (PageId × FrameId) → PageId → List (PageId × FrameId)
  | [], _ => []
  | (q, g) :: rest, p => if q = p then rest else (q, g) :: ptEraseKey rest p

/-- The linear scan `for (it = begin; ...; it++) if (it->second == fid)
{ origin = it->first; erase(it); break; }` used by `NewPgImp` and
`FetchPgImp`: remove the first entry mapped to frame `f` and report its
key. -/
def ptEraseFrame : List (PageId × FrameId) → FrameId → Option PageId × List (PageId × FrameId)
  | [], _ => (none, [])
  | (q, g) :: rest, f =>
    if g = f then (some q, rest)
    else
      let (o, rest') := ptEraseFrame rest f
      (o, (q, g) :: rest')

def ptEmplace (t : List (PageId × FrameId)) (p : PageId) (f : FrameId) :
    List (PageId × FrameId) :=
  match ptLookup t p with
  | some _ => t
  | none => t ++ [(p, f)]

/-! ### Buffer pool manager instance (`buffer_pool_manager_instance.cpp`) -/

structure BPI where
  pool_size : Nat
  num_instances : Nat
  instance_index : Nat
  next_page_id : PageId
  pages : List Frame
  page_table : List (PageId × FrameId)
  free_list : List FrameId
  replacer : LRUReplacer
  deriving Repr, DecidableEq

/-- `pages_[f]` (reads past the array are irrelevant: the source never
indexes out of `[0, pool_size)`). -/
def getFrame (s : BPI) (f : FrameId) : Frame := s.pages.getD f Frame.empty

def setFrame (s : BPI) (f : FrameId) (fr : Frame) : BPI :=
  { s with pages := s.pages.set f fr }

/-- The constructor: all frames default-initialized, free list `[0, …,
pool_size-1]` front first, empty page table and replacer,
`next_page_id_ = instance_index`. -/
def mkBPI (pool_size num_instances instance_index : Nat) : BPI :=
  { pool_size := pool_size
    num_instances := num_instances
    instance_index := instance_index
    next_page_id := instance_index
    pages := List.replicate pool_size Frame.empty
    page_table := []
    free_list := List.range pool_size
    replacer := { replacer := [], max_pages := pool_size } }

/-- The victim-acquisition step shared verbatim by `NewPgImp` and
`FetchPgImp`: pop the free-list head if the free list is non-empty, else
ask the replacer for a victim. -/
def pickVictim (s : BPI) : Option (FrameId × BPI) :=
  match s.free_list with
  | f :: rest => some (f, { s with free_list := rest })
  | [] =>
    match s.replacer.victim with
    | (none, _) => none
    | (some f, r') => some (f, { s with replacer := r' })

/-- The counting loop at the top of `NewPgImp`: resident frames
(`page_id_ != INVALID_PAGE_ID`) with `pin_count_ != 0`. -/
def pinnedNum (s : BPI) : Nat :=
  (s.pages.filter fun p => p.page_id ≠ INVALID_PAGE_ID ∧ p.pin_count ≠ 0).length

/-- `BufferPoolManagerInstance::NewPgImp`.  Returns the new state, the
disk state, and on success the victim frame id together with the
allocated page id.  Note the source's behaviour is kept: when the victim
was drawn from the free list the table scan finds nothing and `origin_id`
is an uninitialized variable; it is then only read under `IsDirty()`,
which is false for such frames in every reachable state — the model picks
`INVALID_PAGE_ID` as the arbitrary value.  The source also issues
`ReadPage` on the freshly allocated page id, after zeroing the buffer, so
the returned buffer holds whatever the disk stores there. -/
def newPg (s : BPI) (d : Disk) : BPI × Disk × Option (FrameId × PageId) :=
  if pinnedNum s = s.pool_size then (s, d, none)
  else
    match pickVictim s with
    | none => (s, d, none)
    | some (v, s₁) =>
      let (origin?, table₁) := ptEraseFrame s₁.page_table v
      let page := getFrame s₁ v
      let d₁ := if page.is_dirty then d.writePage (origin?.getD INVALID_PAGE_ID) page.data else d
      let new_pid := s₁.next_page_id
      let (val, d₂) := d₁.readPage new_pid
      let s₂ := { s₁ with
        next_page_id := s₁.next_page_id + (s₁.num_instances : Int)
        page_table := ptEmplace table₁ new_pid v }
      let s₃ := setFrame s₂ v
        { page_id := new_pid, pin_count := 1, is_dirty := false, data := val }
      let s₄ := { s₃ with replacer := s₃.replacer.pin v }
      (s₄, d₂, some (v, new_pid))

/-- `BufferPoolManagerInstance::FetchPgImp`.  Returns the state, the disk,
and on success the frame id holding the page. -/
def fetchPg (s : BPI) (d : Disk) (pid : PageId) : BPI × Disk × Option FrameId :=
  match ptLookup s.page_table pid with
  | some f =>
    let page := getFrame s f
    let s₁ := setFrame s f { page with pin_count := page.pin_count + 1 }
    let s₂ := { s₁ with replacer := s₁.replacer.pin f }
    (s₂, d, some f)
  | none =>
    match pickVictim s with
    | none => (s, d, none)
    | some (f, s₁) =>
      let page := getFrame s₁ f
      let d₁ := if page.is_dirty then d.writePage page.page_id page.data else d
      let (_, table₁) := ptEraseFrame s₁.page_table f
      let table₂ := ptEmplace table₁ pid f
      let (val, d₂) := d₁.readPage pid
      let s₂ := setFrame { s₁ with page_table := table₂ } f
        { page_id := pid, pin_count := 1, is_dirty := false, data := val }
      let s₃ := { s₂ with replacer := s₂.replacer.pin f }
      (s₃, d₂, some f)

/-- `BufferPoolManagerInstance::UnpinPgImp`.  Note the source calls
`replacer_->Unpin(frame_id)` on every successful unpin, not only when the
decremented pin count reaches zero. -/
def unpinPg (s : BPI) (pid : PageId) (is_dirty : Bool) : BPI × Bool :=
  match ptLookup s.page_table pid with
  | none => (s, false)
  | some f =>
    let page := getFrame s f
    if page.pin_count > 0 then
      let page' := { page with
        pin_count := page.pin_count - 1
        is_dirty := if is_dirty then true else page.is_dirty }
      let s₁ := setFrame s f page'
      ({ s₁ with replacer := s₁.replacer.unpin f }, true)
    else (s, false)

/-- `BufferPoolManagerInstance::FlushPgImp`.  The source erases the page
table entry, resets the frame and pushes it on the free list in addition
to the dirty write-back. -/
def flushPg (s : BPI) (d : Disk) (pid : PageId) : BPI × Disk × Bool :=
  match ptLookup s.page_table pid with
  | none => (s, d, false)
  | some f =>
    if pid = INVALID_PAGE_ID then (s, d, false)
    else
      let table₁ := ptEraseKey s.page_table pid
      let page := getFrame s f
      let d₁ := if page.is_dirty then d.writePage pid page.data else d
      let s₁ := setFrame { s with page_table := table₁ } f Frame.empty
      ({ s₁ with free_list := s₁.free_list ++ [f] }, d₁, true)

/-- `BufferPoolManagerInstance::FlushAllPgsImp`: for every page-table
entry write back if dirty and reset the frame, then clear the table and
rebuild the free list as `[0, …, pool_size-1]`. -/
def flushAllPgs (s : BPI) (d : Disk) : BPI × Disk :=
  let fold := s.page_table.foldl
    (fun (acc : List Frame × Disk) e =>
      let page := acc.1.getD e.2 Frame.empty
      let d₁ := if page.is_dirty then acc.2.writePage e.1 page.data else acc.2
      (acc.1.set e.2 Frame.empty, d₁))
    (s.pages, d)
  ({ s with pages := fold.1, page_table := [], free_list := List.range s.pool_size },
   fold.2)

/-- `BufferPoolManagerInstance::DeletePgImp`. -/
def deletePg (s : BPI) (d : Disk) (pid : PageId) : BPI × Disk × Bool :=
  let d₀ := d.deallocatePage pid
  match ptLookup s.page_table pid with
  | none => (s, d₀, true)
  | some f =>
    let page := getFrame s f
    if page.pin_count = 0 then
      let d₁ := if page.is_dirty then d₀.writePage pid page.data else d₀
      let s₁ := setFrame { s with page_table := ptEraseKey s.page_table pid } f Frame.empty
      ({ s₁ with free_list := s₁.free_list ++ [f] }, d₁, true)
    else (s, d₀, false)

/-! ### Operation sequences over one pool instance -/

inductive Op where
  | newPage : Op
  | fetchPage : PageId → Op
  | unpinPage : PageId → Bool → Op
  | flushPage : PageId → Op
  | flushAll : Op
  | deletePage : PageId → Op

def step (sd : BPI × Disk) (op : Op) : BPI × Disk :=
  match op with
  | .newPage => let r := newPg sd.1 sd.2; (r.1, r.2.1)
  | .fetchPage p => let r := fetchPg sd.1 sd.2 p; (r.1, r.2.1)
  | .unpinPage p dirty => ((unpinPg sd.1 p dirty).1, sd.2)
  | .flushPage p => let r := flushPg sd.1 sd.2 p; (r.1, r.2.1)
  | .flushAll => flushAllPgs sd.1 sd.2
  | .deletePage p => let r := deletePg sd.1 sd.2 p; (r.1, r.2.1)

def run (ops : List Op) (sd : BPI × Disk) : BPI × Disk := ops.foldl step sd

/-- A zeroed disk. -/
def d0 : Disk := mkDisk fun _ => 0

/-- A single-instance pool of one frame over a zeroed disk. -/
def sd1 : BPI × Disk := (mkBPI 1 1 0, d0)

/-! ### Parallel buffer pool manager (`parallel_buffer_pool_manager.cpp`)

All instances share the one disk manager, so the disk is threaded through
separately from the per-instance states. -/

structure PBPM where
  pool_size : Nat
  num_instances : Nat
  instances : List BPI

/-- The constructor: `num_instances_` falls back to 1 when 0 is passed;
instance `i` is built as `BufferPoolManagerInstance(pool_size, N, i, …)`. -/
def mkPBPM (num_instances pool_size : Nat) : PBPM :=
  let n := if num_instances > 0 then num_instances else 1
  { pool_size := pool_size
    num_instances := n
    instances := (List.range n).map fun i => mkBPI pool_size n i }

/-- `GetBufferPoolManager`: route by `page_id % num_instances_`. -/
def PBPM.shardOf (p : PBPM) (pid : PageId) : Nat :=
  (pid % (p.num_instances : Int)).toNat

def PBPM.getInstance (p : PBPM) (i : Nat) : BPI := p.instances.getD i (mkBPI 0 1 0)

def PBPM.setInstance (p : PBPM) (i : Nat) (s : BPI) : PBPM :=
  { p with instances := p.instances.set i s }

/-- `ParallelBufferPoolManager::FetchPgImp`: dispatch to the responsible
instance. -/
def PBPM.fetchPage (p : PBPM) (d : Disk) (pid : PageId) : PBPM × Disk × Option FrameId :=
  let pos := p.shardOf pid
  let r := fetchPg (p.getInstance pos) d pid
  (p.setInstance pos r.1, r.2.1, r.2.2)

/-- `ParallelBufferPoolManager::UnpinPgImp`. -/
def PBPM.unpinPage (p : PBPM) (pid : PageId) (dirty : Bool) : PBPM × Bool :=
  let pos := p.shardOf pid
  let r := unpinPg (p.getInstance pos) pid dirty
  (p.setInstance pos r.1, r.2)

/-- The loop body of `ParallelBufferPoolManager::NewPgImp` over the index
list `[0, …, num_instances]` (the source iterates `i <= num_instances_`,
reducing each index modulo `num_instances_`): try each instance in turn
and stop at the first success. -/
def pbpmNewLoop (p : PBPM) (d : Disk) : List Nat → PBPM × Disk × Option PageId
  | [] => (p, d, none)
  | i :: rest =>
    let pos := i % p.num_instances
    let r := newPg (p.getInstance pos) d
    match r.2.2 with
    | some x => (p.setInstance pos r.1, r.2.1, some x.2)
    | none => pbpmNewLoop (p.setInstance pos r.1) r.2.1 rest

/-- `ParallelBufferPoolManager::NewPgImp`: probe the instances starting
from index 0 on every call (the source keeps no rotating cursor). -/
def PBPM.newPage (p : PBPM) (d : Disk) : PBPM × Disk × Option PageId :=
  pbpmNewLoop p d (List.range (p.num_instances + 1))

/-! ### Concrete scenario states used by the theorems below -/

/-- Pool of one frame after `NewPage` (page 0, pin 1), `FetchPage(0)`
(pin 2), `UnpinPage(0, false)` (pin 1).  Because `UnpinPgImp` calls
`replacer_->Unpin` on every successful unpin, frame 0 sits in the
replacer although its pin count is still 1. -/
def pinnedScenario : BPI × Disk :=
  run [.newPage, .fetchPage 0, .unpinPage 0 false] sd1

/-- Pool of one frame after `NewPage` (page 0, pin 1), `FetchPage(0)`
(pin 2). -/
def doublePinned : BPI × Disk := run [.newPage, .fetchPage 0] sd1

/-- Pool of one frame after `NewPage` then `UnpinPage(0, false)`: page 0
resident, clean, pin count 0. -/
def restingScenario : BPI × Disk := run [.newPage, .unpinPage 0 false] sd1

/-- `restingScenario` followed by `DeletePage(0)`. -/
def deletedScenario : BPI × Disk :=
  run [.newPage, .unpinPage 0 false, .deletePage 0] sd1

/-- A disk whose page 0 holds the junk value 7. -/
def dJunk : Disk := mkDisk fun p => if p = 0 then 7 else 0

/-- A two-frame instance in which frame 0 holds dirty page 0 (buffer 55,
unpinned, the replacer's next victim) and frame 1 holds pinned page 1. -/
def c8state : BPI :=
  { pool_size := 2, num_instances := 1, instance_index := 0, next_page_id := 2,
    pages := [{ page_id := 0, pin_count := 0, is_dirty := true, data := 55 },
              { page_id := 1, pin_count := 1, is_dirty := false, data := 3 }],
    page_table := [(0, 0), (1, 1)],
    free_list := [],
    replacer := { replacer := [0], max_pages := 2 } }

/-- `c8state` after `pickVictim` pops frame 0 from the replacer. -/
def c8afterPick : BPI := { c8state with replacer := { replacer := [], max_pages := 2 } }

/-- A one-frame instance holding clean page 3 unpinned, used to read
page 0 back from disk. -/
def c8reader : BPI :=
  { pool_size := 1, num_instances := 1, instance_index := 0, next_page_id := 4,
    pages := [{ page_id := 3, pin_count := 0, is_dirty := false, data := 9 }],
    page_table := [(3, 0)],
    free_list := [],
    replacer := { replacer := [0], max_pages := 1 } }

/-- `c8reader` after `pickVictim` pops frame 0 from the replacer. -/
def c8readerPicked : BPI := { c8reader with replacer := { replacer := [], max_pages := 1 } }

/-- A disk that holds 55 at page 0, as left by the write-back of
`c8state`'s dirty frame. -/
def c8disk : Disk := mkDisk fun q => if q = 0 then 55 else 0

/-- A one-frame instance holding page 0 with pin count 1, as left by a
single `NewPage`. -/
def c10state : BPI :=
  { pool_size := 1, num_instances := 1, instance_index := 0, next_page_id := 1,
    pages := [{ page_id := 0, pin_count := 1, is_dirty := false, data := 0 }],
    page_table := [(0, 0)],
    free_list := [],
    replacer := { replacer := [], max_pages := 1 } }

/-- Spec-shaped restatement of `DeletePage` following claim C9 word for
word: deallocate the page id on disk first; a non-resident page is
idempotent success with no other state change; a pinned page is failure;
otherwise write back if dirty, reset the frame's metadata and buffer,
drop the table entry, append the frame to the free list and succeed. -/
def deletePgSpec (s : BPI) (d : Disk) (pid : PageId) : BPI × Disk × Bool :=
  let d₀ := d.deallocatePage pid
  match ptLookup s.page_table pid with
  | none => (s, d₀, true)
  | some f =>
    if (getFrame s f).pin_count > 0 then (s, d₀, false)
    else
      let page := getFrame s f
      let d₁ := if page.is_dirty then d₀.writePage pid page.data else d₀
      let s₁ := { s with
        pages := s.pages.set f
          { page_id := INVALID_PAGE_ID, pin_count := 0, is_dirty := false, data := 0 }
        page_table := ptEraseKey s.page_table pid
        free_list := s.free_list ++ [f] }
      (s₁, d₁, true)

/-! ### Helper lemmas -/

/-- `pickVictim` only consumes the free list or the replacer: the frame
array and the page table are untouched. -/
theorem pickVictim_preserves (s : BPI) (f : FrameId) (s' : BPI)
    (h : pickVictim s = some (f, s')) :
    s'.pages = s.pages ∧ s'.page_table = s.page_table := by
  unfold pickVictim at h
  cases hfl : s.free_list with
  | cons a l =>
    rw [hfl] at h
    simp only [Option.some.injEq, Prod.mk.injEq] at h
    rw [← h.2]
    exact ⟨rfl, rfl⟩
  | nil =>
    rw [hfl] at h
    unfold LRUReplacer.victim at h
    cases hr : s.replacer.replacer with
    | nil => rw [hr] at h; simp at h
    | cons a l =>
      rw [hr] at h
      simp only [Option.some.injEq, Prod.mk.injEq] at h
      rw [← h.2]
      exact ⟨rfl, rfl⟩

theorem getD_set_self (l : List Frame) (i : Nat) (a : Frame) (h : i < l.length) :
    (l.set i a).getD i Frame.empty = a := by
  simp [List.getD, List.getElem?_set_self, h]

/-! ### Claim theorems -/

/-- C1: refuted on the code.  After `NewPage` (page 0, pin 1),
`FetchPage(0)` (pin 2) and one `UnpinPage(0, false)` (pin 1), frame 0
still has pin count 1 and holds page 0 — yet `FetchPage(1)` selects it as
the eviction victim, reuses it for page 1 and drops page 0's mapping,
because `UnpinPgImp` handed the frame to the replacer on an unpin that
left the pin count positive. -/
theorem c1_pinned_frame_evicted :
    getFrame pinnedScenario.1 0 =
      { page_id := 0, pin_count := 1, is_dirty := false, data := 0 } ∧
    (fetchPg pinnedScenario.1 pinnedScenario.2 1).2.2 = some 0 ∧
    getFrame (fetchPg pinnedScenario.1 pinnedScenario.2 1).1 0 =
      { page_id := 1, pin_count := 1, is_dirty := false, data := 0 } ∧
    ptLookup (fetchPg pinnedScenario.1 pinnedScenario.2 1).1.page_table 0 = none := by
  decide

/-- C2: refuted on the code.  Unpinning page 0 from pin count 2 returns
true and decrements the pin count to 1, but `UnpinPgImp` calls
`replacer_->Unpin(frame_id)` unconditionally, so frame 0 enters the
replacer even though the decremented pin count is 1, not 0. -/
theorem c2_replacer_unpin_not_conditional :
    (unpinPg doublePinned.1 0 false).2 = true ∧
    getFrame (unpinPg doublePinned.1 0 false).1 0 =
      { page_id := 0, pin_count := 1, is_dirty := false, data := 0 } ∧
    (unpinPg doublePinned.1 0 false).1.replacer.replacer = [0] := by
  decide

/-- C3: refuted on the code.  With page 0 resident, clean and unpinned,
`FlushPage(0)` returns true but evicts the page: its page-table entry is
erased, the frame is reset to the empty frame and pushed onto the free
list, instead of the write-back-only behaviour the claim states. -/
theorem c3_flush_evicts_page :
    (flushPg restingScenario.1 restingScenario.2 0).2.2 = true ∧
    ptLookup (flushPg restingScenario.1 restingScenario.2 0).1.page_table 0 = none ∧
    (flushPg restingScenario.1 restingScenario.2 0).1.free_list = [0] ∧
    getFrame (flushPg restingScenario.1 restingScenario.2 0).1 0 = Frame.empty := by
  decide

/-- C4: refuted on the code.  After `NewPage`, `UnpinPage(0, false)` and
a successful `DeletePage(0)`, frame 0 is on the free list and the page
table is empty, yet `DeletePgImp` leaves frame 0 in the replacer — a
replacer member that is in no page-table mapping, violating the
invariant that every replacer frame is resident. -/
theorem c4_replacer_member_not_resident :
    (run [.deletePage 0] restingScenario).1 = deletedScenario.1 ∧
    deletedScenario.1.replacer.replacer = [0] ∧
    deletedScenario.1.page_table = [] ∧
    deletedScenario.1.free_list = [0] ∧
    getFrame deletedScenario.1 0 = Frame.empty := by
  decide

/-- C5: refuted on the code.  `NewPgImp` issues `ReadPage` on the freshly
allocated page id: on a disk holding junk value 7 at page 0, the first
`NewPage` returns a frame whose buffer holds 7 rather than zeros, and the
disk read log records the read of page 0. -/
theorem c5_newpage_reads_disk :
    (newPg (mkBPI 1 1 0) dJunk).2.2 = some (0, 0) ∧
    getFrame (newPg (mkBPI 1 1 0) dJunk).1 0 =
      { page_id := 0, pin_count := 1, is_dirty := false, data := 7 } ∧
    (newPg (mkBPI 1 1 0) dJunk).2.1.reads = [0] := by
  decide

/-- C6: refuted on the code.  With two single-frame shards, the first
`NewPage` allocates page 0 on shard 0; after `UnpinPage(0, false)`, a
rotating cursor would make the second `NewPage` start at shard 1 and
return page 1, but `ParallelBufferPoolManager::NewPgImp` keeps no cursor
and probes from shard 0 on every call, so it evicts page 0 on shard 0 and
returns page 2, leaving shard 1 empty. -/
theorem c6_no_rotating_cursor :
    ((mkPBPM 2 1).newPage d0).2.2 = some 0 ∧
    (let r1 := (mkPBPM 2 1).newPage d0
     let r2 := (r1.1.unpinPage 0 false).1
     (r2.newPage r1.2.1).2.2) = some 2 ∧
    (let r1 := (mkPBPM 2 1).newPage d0
     let r2 := (r1.1.unpinPage 0 false).1
     ((r2.newPage r1.2.1).1.getInstance 1).page_table) = [] := by
  decide

/-- C7: refuted on the code.  In the state reached by `NewPage`,
`FetchPage(0)`, `UnpinPage(0, false)` on a one-frame pool, the replacer
holds frame 0 (a victim is available and `FetchPage(1)` indeed succeeds
by evicting it), yet `NewPage` returns null because its guard counts
resident pinned frames — so NewPage and FetchPage do not fail under the
same condition, and NewPage fails while a frame is evictable. -/
theorem c7_newpage_null_with_victim_available :
    (newPg pinnedScenario.1 pinnedScenario.2).2.2 = none ∧
    pinnedScenario.1.replacer.replacer = [0] ∧
    pinnedScenario.1.free_list = [] ∧
    (fetchPg pinnedScenario.1 pinnedScenario.2 1).2.2 = some 0 := by
  decide

/-- C9: confirmed.  `DeletePgImp` implements exactly the claimed
contract: deallocate the page id on disk first; return true with no other
state change when the page is not resident; return false when it is
resident and pinned; otherwise write back if dirty, reset the frame's
metadata and buffer, remove the page-table entry, append the frame to the
free list and return true. -/
theorem c9_delete_contract :
    ∀ (s : BPI) (d : Disk) (pid : PageId), deletePg s d pid = deletePgSpec s d pid := by
  intro s d pid
  unfold deletePg deletePgSpec
  cases h : ptLookup s.page_table pid with
  | none => rfl
  | some f =>
    by_cases hp : (getFrame s f).pin_count = 0
    · simp only [hp, if_pos rfl, gt_iff_lt, Nat.lt_irrefl, if_false]
      rfl
    · simp only [if_neg hp, if_pos (Nat.pos_of_ne_zero hp)]

/-- C8: confirmed.  When victim selection in `FetchPage` or `NewPage`
displaces a dirty resident frame `f` (current page id `p`, the page-table
scan finding `p` for `f`), the displaced buffer is written to disk at `p`
— the frame's current page id, not the caller-supplied one — before the
frame is reused: after a `FetchPage` miss, and after a `NewPage` that
passes its all-resident-pinned guard (without which its victim selection
never runs), the disk holds the displaced bytes at `p`.  Moreover any
later `FetchPage(p)` against a state where
`p` is non-resident and the disk still holds those bytes succeeds with a
frame whose buffer equals them. -/
theorem c8_dirty_writeback_at_current_pid
    (s : BPI) (d : Disk) (pid p : PageId) (f : FrameId) (s₁ : BPI)
    (hmiss : ptLookup s.page_table pid = none)
    (hvict : pickVictim s = some (f, s₁))
    (hdirty : (getFrame s f).is_dirty = true)
    (hcur : (getFrame s f).page_id = p)
    (hscan : (ptEraseFrame s.page_table f).1 = some p) :
    (fetchPg s d pid).2.1.contents p = (getFrame s f).data ∧
    (pinnedNum s ≠ s.pool_size → (newPg s d).2.1.contents p = (getFrame s f).data) ∧
    ∀ (s₂ : BPI) (d₂ : Disk) (f₂ : FrameId) (s₃ : BPI),
      ptLookup s₂.page_table p = none →
      pickVictim s₂ = some (f₂, s₃) →
      (getFrame s₂ f₂).page_id ≠ p →
      f₂ < s₂.pages.length →
      d₂.contents p = (getFrame s f).data →
      (fetchPg s₂ d₂ p).2.2 = some f₂ ∧
      getFrame (fetchPg s₂ d₂ p).1 f₂ =
        { page_id := p, pin_count := 1, is_dirty := false,
          data := (getFrame s f).data } := by
  obtain ⟨hp₁, ht₁⟩ := pickVictim_preserves s f s₁ hvict
  have hg₁ : getFrame s₁ f = getFrame s f := by rw [getFrame, getFrame, hp₁]
  refine ⟨?_, ?_, ?_⟩
  · unfold fetchPg
    rw [hmiss, hvict]
    simp [hg₁, hdirty, hcur, Disk.readPage, Disk.writePage]
  · intro hfull
    unfold newPg
    rw [if_neg hfull, hvict]
    dsimp only
    obtain ⟨o, t, hpe⟩ : ∃ o t, ptEraseFrame s₁.page_table f = (o, t) := ⟨_, _, rfl⟩
    have ho : o = some p := by rw [← hscan, ← ht₁, hpe]
    subst ho
    rw [hpe]
    dsimp only
    simp [hg₁, hdirty, Disk.readPage, Disk.writePage]
  · intro s₂ d₂ f₂ s₃ h2miss h2vict h2ne h2len h2disk
    obtain ⟨hp₂, ht₂⟩ := pickVictim_preserves s₂ f₂ s₃ h2vict
    have hg₂ : getFrame s₃ f₂ = getFrame s₂ f₂ := by rw [getFrame, getFrame, hp₂]
    unfold fetchPg
    rw [h2miss, h2vict]
    dsimp only
    obtain ⟨o₂, t₂, hpe₂⟩ : ∃ o t, ptEraseFrame s₃.page_table f₂ = (o, t) := ⟨_, _, rfl⟩
    rw [hpe₂]
    dsimp only [Disk.readPage]
    refine ⟨rfl, ?_⟩
    rw [setFrame, getFrame]
    dsimp only
    rw [hp₂, getD_set_self _ _ _ h2len]
    rw [hg₂]
    by_cases hd : (getFrame s₂ f₂).is_dirty = true
    · rw [if_pos hd]
      simp [Disk.writePage, h2disk]
      intro hq
      exact absurd hq.symm h2ne
    · rw [if_neg hd]
      simp [h2disk]

/-- Witness for C8: in `c8state`, fetching non-resident page 5 (or
allocating via `NewPage`) evicts dirty frame 0 and writes its buffer 55
to disk at its current page id 0; fetching page 0 in `c8reader` against
the resulting disk returns a frame holding 55. -/
theorem c8_dirty_writeback_at_current_pid_witness :
    (fetchPg c8state d0 5).2.1.contents 0 = 55 ∧
    (newPg c8state d0).2.1.contents 0 = 55 ∧
    (fetchPg c8reader c8disk 0).2.2 = some 0 ∧
    getFrame (fetchPg c8reader c8disk 0).1 0 =
      { page_id := 0, pin_count := 1, is_dirty := false, data := 55 } := by
  have h := c8_dirty_writeback_at_current_pid c8state d0 5 0 0 c8afterPick
    (by decide) (by decide) (by decide) (by decide) (by decide)
  have h3 := h.2.2 c8reader c8disk 0 c8readerPicked
    (by decide) (by decide) (by decide) (by decide) (by decide)
  exact ⟨h.1, h.2.1 (by decide), h3.1, h3.2⟩

/-- C10: confirmed.  Fetching a resident page touches nothing but that
page's frame and the replacer: the disk (contents and I/O logs), the page
table, the free list and every other frame are unchanged, and the frame
keeps its page id, dirty flag and buffer while its pin count grows by
exactly one. -/
theorem c10_fetch_hit_effect (s : BPI) (d : Disk) (pid : PageId) (f : FrameId)
    (h : ptLookup s.page_table pid = some f) :
    fetchPg s d pid =
      ({ s with
          pages := s.pages.set f
            { getFrame s f with pin_count := (getFrame s f).pin_count + 1 }
          replacer := s.replacer.pin f },
        d, some f) := by
  unfold fetchPg
  rw [h]
  rfl

/-- Witness for C10: the hypothesis holds at `c10state` with page 0 in
frame 0, and the conclusion evaluates there. -/
theorem c10_fetch_hit_effect_witness :
    ptLookup c10state.page_table 0 = some 0 ∧
    fetchPg c10state d0 0 =
      ({ c10state with
          pages := c10state.pages.set 0
            { getFrame c10state 0 with pin_count := (getFrame c10state 0).pin_count + 1 }
          replacer := c10state.replacer.pin 0 },
        d0, some 0) :=
  ⟨by decide, c10_fetch_hit_effect c10state d0 0 0 (by decide)⟩

end BusTub
